import Mathlib

/-!
Verification of the portfolio backend (`src/Backend/main.py`).

The backend is a FastAPI application over a relational store holding six
independent tables: two singleton resources (profile, education) and four
collection resources (experience, projects, skill_categories,
certifications).  We shallowly embed the store as explicit state
(`DBState`): each table is a list of rows kept in insertion order together
with the next value of its serial primary-key counter, and each HTTP
handler becomes a Lean function from the request body and the current
state to either an error or a response value paired with the new state.
Pydantic `HttpUrl` fields are modelled as already-validated strings, and
the SQL `Float` column `cgpa` as a rational number (no arithmetic is ever
performed on it).
-/

namespace PortfolioApi

/-- Pydantic schema `ProfileCreate` (main.py lines 85-91): the request body
for POST/PUT /profile.  `portfolio_url` is optional (`None` by default). -/
structure ProfileCreate where
  name : String
  phone : String
  email : String
  linkedin_url : String
  github_url : String
  portfolio_url : Option String := none
  deriving Repr, DecidableEq

/-- Pydantic schema `EducationCreate` (main.py lines 93-98). -/
structure EducationCreate where
  institution : String
  degree : String
  cgpa : Rat
  duration : String
  location : String
  deriving Repr, DecidableEq

/-- Pydantic schema `ExperienceCreate` (main.py lines 100-104). -/
structure ExperienceCreate where
  company : String
  role : String
  duration : String
  description : List String
  deriving Repr, DecidableEq

/-- Pydantic schema `ProjectCreate` (main.py lines 106-109). -/
structure ProjectCreate where
  title : String
  technologies : List String
  description : List String
  deriving Repr, DecidableEq

/-- Pydantic schema `SkillCategoryCreate` (main.py lines 111-113). -/
structure SkillCategoryCreate where
  category_name : String
  skills : List String
  deriving Repr, DecidableEq

/-- Pydantic schema `CertificationCreate` (main.py lines 115-117). -/
structure CertificationCreate where
  issuer : String
  title : String
  deriving Repr, DecidableEq

/-- A stored `profile` row (`ProfileDB`, main.py lines 35-43): the create
shape plus the integer primary key `id`. -/
structure ProfileRow where
  id : Nat
  name : String
  phone : String
  email : String
  linkedin_url : String
  github_url : String
  portfolio_url : Option String
  deriving Repr, DecidableEq

/-- A stored `education` row (`EducationDB`, main.py lines 45-52). -/
structure EducationRow where
  id : Nat
  institution : String
  degree : String
  cgpa : Rat
  duration : String
  location : String
  deriving Repr, DecidableEq

/-- A stored `experience` row (`ExperienceDB`, main.py lines 54-60). -/
structure ExperienceRow where
  id : Nat
  company : String
  role : String
  duration : String
  description : List String
  deriving Repr, DecidableEq

/-- A stored `projects` row (`ProjectDB`, main.py lines 62-67). -/
structure ProjectRow where
  id : Nat
  title : String
  technologies : List String
  description : List String
  deriving Repr, DecidableEq

/-- A stored `skill_categories` row (`SkillCategoryDB`, main.py lines
69-73).  `category_name` carries a database-level unique constraint. -/
structure SkillCategoryRow where
  id : Nat
  category_name : String
  skills : List String
  deriving Repr, DecidableEq

/-- A stored `certifications` row (`CertificationDB`, main.py lines 75-79). -/
structure CertificationRow where
  id : Nat
  issuer : String
  title : String
  deriving Repr, DecidableEq

/-- The create-shape fields of a stored profile row (everything except
`id`), used to compare stored rows with request bodies. -/
def ProfileRow.toCreate (r : ProfileRow) : ProfileCreate :=
  { name := r.name, phone := r.phone, email := r.email,
    linkedin_url := r.linkedin_url, github_url := r.github_url,
    portfolio_url := r.portfolio_url }

/-- The create-shape fields of a stored education row. -/
def EducationRow.toCreate (r : EducationRow) : EducationCreate :=
  { institution := r.institution, degree := r.degree, cgpa := r.cgpa,
    duration := r.duration, location := r.location }

/-- The create-shape fields of a stored experience row. -/
def ExperienceRow.toCreate (r : ExperienceRow) : ExperienceCreate :=
  { company := r.company, role := r.role, duration := r.duration,
    description := r.description }

/-- The create-shape fields of a stored project row. -/
def ProjectRow.toCreate (r : ProjectRow) : ProjectCreate :=
  { title := r.title, technologies := r.technologies,
    description := r.description }

/-- The create-shape fields of a stored skill-category row. -/
def SkillCategoryRow.toCreate (r : SkillCategoryRow) : SkillCategoryCreate :=
  { category_name := r.category_name, skills := r.skills }

/-- The create-shape fields of a stored certification row. -/
def CertificationRow.toCreate (r : CertificationRow) : CertificationCreate :=
  { issuer := r.issuer, title := r.title }

/-- The persistent store: one list of rows per table, in insertion order
(PostgreSQL serial ids are assigned in creation order and the handlers
issue no ORDER BY; per the persistence contract `find_all` returns rows in
insertion order), plus the next value of each table's serial primary-key
sequence. -/
structure DBState where
  profile : List ProfileRow
  education : List EducationRow
  experience : List ExperienceRow
  projects : List ProjectRow
  skill_categories : List SkillCategoryRow
  certifications : List CertificationRow
  profile_seq : Nat
  education_seq : Nat
  experience_seq : Nat
  projects_seq : Nat
  skills_seq : Nat
  certifications_seq : Nat
  deriving Repr, DecidableEq

/-- The store right after startup table creation: every table empty, every
serial sequence at 1 (PostgreSQL serials start at 1). -/
def emptyDB : DBState :=
  { profile := [], education := [], experience := [], projects := [],
    skill_categories := [], certifications := [],
    profile_seq := 1, education_seq := 1, experience_seq := 1,
    projects_seq := 1, skills_seq := 1, certifications_seq := 1 }

/-- How a request fails: either the handler itself raises
`HTTPException(status_code, detail)`, or the database rejects a commit with
an integrity error (unique-constraint violation) that the handler does not
catch. -/
inductive ApiError where
  | httpException (status : Nat) (detail : String)
  | constraintViolation (detail : String)
  deriving Repr, DecidableEq

/-- The HTTP status of the response produced for an error.  An
`HTTPException` carries its own status code; an uncaught database
integrity error propagates out of the handler and FastAPI's default
exception handling turns any uncaught exception into a 500 Internal
Server Error response. -/
def ApiError.statusCode : ApiError → Nat
  | .httpException status _ => status
  | .constraintViolation _ => 500

/-- Handler `create_profile` (main.py lines 187-196), POST /profile: refuse with a
400 if `db.query(ProfileDB).first()` finds a row; otherwise insert the new
row (serial id assigned by the database; the unique constraint on `email`
is checked against the existing rows at commit) and return it. -/
def create_profile (profile : ProfileCreate) (db : DBState) :
    Except ApiError (ProfileRow × DBState) :=
  if db.profile.head?.isSome then
    .error (.httpException 400 "Profile already exists. Use PUT to update.")
  else if db.profile.any (fun r => r.email == profile.email) then
    .error (.constraintViolation "duplicate key value violates unique constraint")
  else
    let row : ProfileRow :=
      { id := db.profile_seq, name := profile.name, phone := profile.phone,
        email := profile.email, linkedin_url := profile.linkedin_url,
        github_url := profile.github_url,
        portfolio_url := profile.portfolio_url }
    .ok (row, { db with profile := db.profile ++ [row],
                        profile_seq := db.profile_seq + 1 })

/-- Handler `get_profile` (main.py lines 198-200), GET /profile: return the first
row of the profile table, or nothing when the table is empty. -/
def get_profile (db : DBState) : Option ProfileRow :=
  db.profile.head?

/-- Handler `update_profile` (main.py lines 202-211), PUT /profile: 404 when the
table has no row; otherwise overwrite every create-shape field of the
first row in place (the id is untouched) and return the refreshed row. -/
def update_profile (profile : ProfileCreate) (db : DBState) :
    Except ApiError (ProfileRow × DBState) :=
  match db.profile with
  | [] => .error (.httpException 404 "Profile not found. Use POST to create one.")
  | r :: rest =>
    let r' : ProfileRow :=
      { r with name := profile.name, phone := profile.phone,
               email := profile.email, linkedin_url := profile.linkedin_url,
               github_url := profile.github_url,
               portfolio_url := profile.portfolio_url }
    .ok (r', { db with profile := r' :: rest })

/-- Handler `create_education` (main.py lines 214-222), POST /education: refuse
with a 400 if a row exists, otherwise insert and return the new row. -/
def create_education (education : EducationCreate) (db : DBState) :
    Except ApiError (EducationRow × DBState) :=
  if db.education.head?.isSome then
    .error (.httpException 400 "Education entry already exists. Use PUT to update.")
  else
    let row : EducationRow :=
      { id := db.education_seq, institution := education.institution,
        degree := education.degree, cgpa := education.cgpa,
        duration := education.duration, location := education.location }
    .ok (row, { db with education := db.education ++ [row],
                        education_seq := db.education_seq + 1 })

/-- Handler `get_education` (main.py lines 224-226), GET /education. -/
def get_education (db : DBState) : Option EducationRow :=
  db.education.head?

/-- Handler `update_education` (main.py lines 228-237), PUT /education: 404 when
absent, otherwise overwrite every create-shape field of the first row. -/
def update_education (education : EducationCreate) (db : DBState) :
    Except ApiError (EducationRow × DBState) :=
  match db.education with
  | [] => .error (.httpException 404 "Education not found. Use POST to create one.")
  | r :: rest =>
    let r' : EducationRow :=
      { r with institution := education.institution,
               degree := education.degree, cgpa := education.cgpa,
               duration := education.duration,
               location := education.location }
    .ok (r', { db with education := r' :: rest })

/-- Generic `create_item` (main.py lines 240-245) over one table: build
the row from the create shape (`mkRow` gives the serial id, i.e. the
`model_db(**schema_create.model_dump())` constructor plus the id the
database assigns), append it, and bump the sequence.  `uniqueViolation`
models the table's declared database unique constraints (only
`SkillCategoryDB.category_name` for the collection tables): when the new
record collides, `db.commit()` raises an integrity error that
`create_item` does not catch. -/
def create_item {C R : Type} (mkRow : Nat → C → R)
    (uniqueViolation : List R → C → Bool) (rows : List R) (seq : Nat)
    (c : C) : Except ApiError (R × List R × Nat) :=
  if uniqueViolation rows c then
    .error (.constraintViolation "duplicate key value violates unique constraint")
  else
    let row := mkRow seq c
    .ok (row, rows ++ [row], seq + 1)

/-- Generic `get_items` (main.py lines 247-248): `db.query(model_db).all()`
returns every stored row of the table, in insertion order. -/
def get_items {R : Type} (rows : List R) : List R :=
  rows

/-- Generic `delete_item` (main.py lines 250-256): find the first row whose
`id` equals `item_id`; 404 when none exists, otherwise delete that row
(primary-key delete removes the single found row) and return a success
message. -/
def delete_item {R : Type} (rowId : R → Nat) (rows : List R)
    (item_id : Nat) : Except ApiError (String × List R) :=
  match rows.find? (fun r => rowId r == item_id) with
  | none => .error (.httpException 404 "Item not found")
  | some _ =>
    .ok ("Item deleted successfully", rows.eraseP (fun r => rowId r == item_id))

/-- Row constructor for the experience table. -/
def mkExperienceRow (seq : Nat) (c : ExperienceCreate) : ExperienceRow :=
  { id := seq, company := c.company, role := c.role, duration := c.duration,
    description := c.description }

/-- Row constructor for the projects table. -/
def mkProjectRow (seq : Nat) (c : ProjectCreate) : ProjectRow :=
  { id := seq, title := c.title, technologies := c.technologies,
    description := c.description }

/-- Row constructor for the skill_categories table. -/
def mkSkillCategoryRow (seq : Nat) (c : SkillCategoryCreate) : SkillCategoryRow :=
  { id := seq, category_name := c.category_name, skills := c.skills }

/-- Row constructor for the certifications table. -/
def mkCertificationRow (seq : Nat) (c : CertificationCreate) : CertificationRow :=
  { id := seq, issuer := c.issuer, title := c.title }

/-- The declared unique constraint of `SkillCategoryDB`: inserting a
record whose `category_name` equals an existing row's violates it. -/
def skillUniqueViolation (rows : List SkillCategoryRow)
    (c : SkillCategoryCreate) : Bool :=
  rows.any (fun r => r.category_name == c.category_name)

/-- Handler `add_experience` (main.py lines 259-261), POST /experience. -/
def add_experience (c : ExperienceCreate) (db : DBState) :
    Except ApiError (ExperienceRow × DBState) :=
  match create_item mkExperienceRow (fun _ _ => false) db.experience
      db.experience_seq c with
  | .error e => .error e
  | .ok (r, rows, seq) =>
    .ok (r, { db with experience := rows, experience_seq := seq })

/-- Handler `get_all_experiences` (main.py lines 263-265), GET /experience. -/
def get_all_experiences (db : DBState) : List ExperienceRow :=
  get_items db.experience

/-- Handler `delete_experience` (main.py lines 267-269), DELETE /experience/{id}. -/
def delete_experience (exp_id : Nat) (db : DBState) :
    Except ApiError (String × DBState) :=
  match delete_item (fun r => r.id) db.experience exp_id with
  | .error e => .error e
  | .ok (msg, rows) => .ok (msg, { db with experience := rows })

/-- Handler `add_project` (main.py lines 272-274), POST /projects. -/
def add_project (c : ProjectCreate) (db : DBState) :
    Except ApiError (ProjectRow × DBState) :=
  match create_item mkProjectRow (fun _ _ => false) db.projects
      db.projects_seq c with
  | .error e => .error e
  | .ok (r, rows, seq) =>
    .ok (r, { db with projects := rows, projects_seq := seq })

/-- Handler `get_all_projects` (main.py lines 276-278), GET /projects. -/
def get_all_projects (db : DBState) : List ProjectRow :=
  get_items db.projects

/-- Handler `delete_project` (main.py lines 280-282), DELETE /projects/{id}. -/
def delete_project (proj_id : Nat) (db : DBState) :
    Except ApiError (String × DBState) :=
  match delete_item (fun r => r.id) db.projects proj_id with
  | .error e => .error e
  | .ok (msg, rows) => .ok (msg, { db with projects := rows })

/-- Handler `add_skill_category` (main.py lines 285-287), POST /skills. -/
def add_skill_category (c : SkillCategoryCreate) (db : DBState) :
    Except ApiError (SkillCategoryRow × DBState) :=
  match create_item mkSkillCategoryRow skillUniqueViolation
      db.skill_categories db.skills_seq c with
  | .error e => .error e
  | .ok (r, rows, seq) =>
    .ok (r, { db with skill_categories := rows, skills_seq := seq })

/-- Handler `get_all_skill_categories` (main.py lines 289-291), GET /skills. -/
def get_all_skill_categories (db : DBState) : List SkillCategoryRow :=
  get_items db.skill_categories

/-- Handler `delete_skill_category` (main.py lines 293-295), DELETE /skills/{id}. -/
def delete_skill_category (skill_id : Nat) (db : DBState) :
    Except ApiError (String × DBState) :=
  match delete_item (fun r => r.id) db.skill_categories skill_id with
  | .error e => .error e
  | .ok (msg, rows) => .ok (msg, { db with skill_categories := rows })

/-- Handler `add_certification` (main.py lines 298-300), POST /certifications. -/
def add_certification (c : CertificationCreate) (db : DBState) :
    Except ApiError (CertificationRow × DBState) :=
  match create_item mkCertificationRow (fun _ _ => false) db.certifications
      db.certifications_seq c with
  | .error e => .error e
  | .ok (r, rows, seq) =>
    .ok (r, { db with certifications := rows, certifications_seq := seq })

/-- Handler `get_all_certifications` (main.py lines 302-304), GET /certifications. -/
def get_all_certifications (db : DBState) : List CertificationRow :=
  get_items db.certifications

/-- Handler `delete_certification` (main.py lines 306-308), DELETE /certifications/{id}. -/
def delete_certification (cert_id : Nat) (db : DBState) :
    Except ApiError (String × DBState) :=
  match delete_item (fun r => r.id) db.certifications cert_id with
  | .error e => .error e
  | .ok (msg, rows) => .ok (msg, { db with certifications := rows })

/-- One inbound API request: every state-relevant endpoint of the HTTP
surface (GET / returns a constant message and touches no state, so it is
`readRoot`). -/
inductive ApiOp where
  | readRoot
  | createProfile (p : ProfileCreate)
  | getProfile
  | updateProfile (p : ProfileCreate)
  | createEducation (e : EducationCreate)
  | getEducation
  | updateEducation (e : EducationCreate)
  | addExperience (c : ExperienceCreate)
  | getAllExperiences
  | deleteExperience (id : Nat)
  | addProject (c : ProjectCreate)
  | getAllProjects
  | deleteProject (id : Nat)
  | addSkillCategory (c : SkillCategoryCreate)
  | getAllSkillCategories
  | deleteSkillCategory (id : Nat)
  | addCertification (c : CertificationCreate)
  | getAllCertifications
  | deleteCertification (id : Nat)
  deriving Repr, DecidableEq

/-- The state reached after handling one request: a failed request leaves
the store unchanged (the handler raises before or instead of committing),
a successful one commits its single-table change. -/
def step (db : DBState) : ApiOp → DBState
  | .readRoot => db
  | .createProfile p =>
    match create_profile p db with
    | .ok (_, db') => db'
    | .error _ => db
  | .getProfile => db
  | .updateProfile p =>
    match update_profile p db with
    | .ok (_, db') => db'
    | .error _ => db
  | .createEducation e =>
    match create_education e db with
    | .ok (_, db') => db'
    | .error _ => db
  | .getEducation => db
  | .updateEducation e =>
    match update_education e db with
    | .ok (_, db') => db'
    | .error _ => db
  | .addExperience c =>
    match add_experience c db with
    | .ok (_, db') => db'
    | .error _ => db
  | .getAllExperiences => db
  | .deleteExperience i =>
    match delete_experience i db with
    | .ok (_, db') => db'
    | .error _ => db
  | .addProject c =>
    match add_project c db with
    | .ok (_, db') => db'
    | .error _ => db
  | .getAllProjects => db
  | .deleteProject i =>
    match delete_project i db with
    | .ok (_, db') => db'
    | .error _ => db
  | .addSkillCategory c =>
    match add_skill_category c db with
    | .ok (_, db') => db'
    | .error _ => db
  | .getAllSkillCategories => db
  | .deleteSkillCategory i =>
    match delete_skill_category i db with
    | .ok (_, db') => db'
    | .error _ => db
  | .addCertification c =>
    match add_certification c db with
    | .ok (_, db') => db'
    | .error _ => db
  | .getAllCertifications => db
  | .deleteCertification i =>
    match delete_certification i db with
    | .ok (_, db') => db'
    | .error _ => db

/-- The state after a whole sequence of requests against a fresh store. -/
def runOps (ops : List ApiOp) : DBState :=
  ops.foldl step emptyDB

/-- Well-formedness of one collection table: every stored id is below the
table's serial sequence, and the stored ids are strictly increasing along
the list (rows stand in creation order, since serial ids are assigned in
increasing creation order). -/
def collOk {R : Type} (rowId : R → Nat) (rows : List R) (seq : Nat) : Prop :=
  (∀ r ∈ rows, rowId r < seq) ∧ (rows.map rowId).Pairwise (· < ·)

/-- The global store invariant: the two singleton tables hold at most one
row, and every collection table is well-formed. -/
def Invariant (db : DBState) : Prop :=
  db.profile.length ≤ 1 ∧ db.education.length ≤ 1 ∧
  collOk (fun r => r.id) db.experience db.experience_seq ∧
  collOk (fun r => r.id) db.projects db.projects_seq ∧
  collOk (fun r => r.id) db.skill_categories db.skills_seq ∧
  collOk (fun r => r.id) db.certifications db.certifications_seq

theorem collOk_append {R : Type} {rowId : R → Nat} {rows : List R}
    {seq : Nat} (h : collOk rowId rows seq) {r : R} (hr : rowId r = seq) :
    collOk rowId (rows ++ [r]) (seq + 1) := by
  obtain ⟨hlt, hp⟩ := h
  constructor
  · intro x hx
    rcases List.mem_append.1 hx with hx | hx
    · exact Nat.lt_succ_of_lt (hlt x hx)
    · rcases List.mem_singleton.1 hx with rfl
      omega
  · rw [List.map_append, List.pairwise_append]
    refine ⟨hp, by simp, ?_⟩
    intro a ha b hb
    rcases List.mem_map.1 ha with ⟨x, hx, rfl⟩
    rcases List.mem_singleton.1 (by simpa using hb) with rfl
    rw [hr]
    exact hlt x hx

theorem collOk_eraseP {R : Type} {rowId : R → Nat} {rows : List R}
    {seq : Nat} (h : collOk rowId rows seq) (p : R → Bool) :
    collOk rowId (rows.eraseP p) seq := by
  obtain ⟨hlt, hp⟩ := h
  have hsub : (rows.eraseP p).Sublist rows := List.eraseP_sublist rows
  exact ⟨fun x hx => hlt x (hsub.subset hx), hp.sublist (hsub.map rowId)⟩

theorem step_invariant (db : DBState) (op : ApiOp) (h : Invariant db) :
    Invariant (step db op) := by
  obtain ⟨hprof, hedu, hexp, hproj, hskill, hcert⟩ := h
  cases op with
  | readRoot => exact ⟨hprof, hedu, hexp, hproj, hskill, hcert⟩
  | getProfile => exact ⟨hprof, hedu, hexp, hproj, hskill, hcert⟩
  | getEducation => exact ⟨hprof, hedu, hexp, hproj, hskill, hcert⟩
  | getAllExperiences => exact ⟨hprof, hedu, hexp, hproj, hskill, hcert⟩
  | getAllProjects => exact ⟨hprof, hedu, hexp, hproj, hskill, hcert⟩
  | getAllSkillCategories => exact ⟨hprof, hedu, hexp, hproj, hskill, hcert⟩
  | getAllCertifications => exact ⟨hprof, hedu, hexp, hproj, hskill, hcert⟩
  | createProfile p =>
    cases hpr : db.profile with
    | nil =>
      simp only [step, create_profile, hpr, List.head?_nil, Option.isSome_none,
        Bool.false_eq_true, if_false, List.any_nil, List.nil_append]
      exact ⟨by simp, hedu, hexp, hproj, hskill, hcert⟩
    | cons r rest =>
      simp only [step, create_profile, hpr, List.head?_cons, Option.isSome_some,
        if_true]
      exact ⟨hpr ▸ hprof, hedu, hexp, hproj, hskill, hcert⟩
  | updateProfile p =>
    cases hpr : db.profile with
    | nil => simpa [step, update_profile, hpr] using
        ⟨hprof, hedu, hexp, hproj, hskill, hcert⟩
    | cons r rest =>
      simp only [step, update_profile, hpr]
      refine ⟨?_, hedu, hexp, hproj, hskill, hcert⟩
      have := hpr ▸ hprof
      simpa using this
  | createEducation e =>
    cases hed : db.education with
    | nil =>
      simp only [step, create_education, hed, List.head?_nil, Option.isSome_none,
        Bool.false_eq_true, if_false, List.nil_append]
      exact ⟨hprof, by simp, hexp, hproj, hskill, hcert⟩
    | cons r rest =>
      simp only [step, create_education, hed, List.head?_cons, Option.isSome_some,
        if_true]
      exact ⟨hprof, hed ▸ hedu, hexp, hproj, hskill, hcert⟩
  | updateEducation e =>
    cases hed : db.education with
    | nil => simpa [step, update_education, hed] using
        ⟨hprof, hedu, hexp, hproj, hskill, hcert⟩
    | cons r rest =>
      simp only [step, update_education, hed]
      refine ⟨hprof, ?_, hexp, hproj, hskill, hcert⟩
      have := hed ▸ hedu
      simpa using this
  | addExperience c =>
    simp only [step, add_experience, create_item, Bool.false_eq_true, if_false]
    exact ⟨hprof, hedu, collOk_append hexp rfl, hproj, hskill, hcert⟩
  | deleteExperience i =>
    simp only [step, delete_experience, delete_item]
    cases db.experience.find? (fun r => r.id == i) with
    | none => exact ⟨hprof, hedu, hexp, hproj, hskill, hcert⟩
    | some r =>
      exact ⟨hprof, hedu, collOk_eraseP hexp _, hproj, hskill, hcert⟩
  | addProject c =>
    simp only [step, add_project, create_item, Bool.false_eq_true, if_false]
    exact ⟨hprof, hedu, hexp, collOk_append hproj rfl, hskill, hcert⟩
  | deleteProject i =>
    simp only [step, delete_project, delete_item]
    cases db.projects.find? (fun r => r.id == i) with
    | none => exact ⟨hprof, hedu, hexp, hproj, hskill, hcert⟩
    | some r =>
      exact ⟨hprof, hedu, hexp, collOk_eraseP hproj _, hskill, hcert⟩
  | addSkillCategory c =>
    simp only [step, add_skill_category, create_item]
    cases hv : skillUniqueViolation db.skill_categories c with
    | true => exact ⟨hprof, hedu, hexp, hproj, hskill, hcert⟩
    | false =>
      simp only [Bool.false_eq_true, if_false]
      exact ⟨hprof, hedu, hexp, hproj, collOk_append hskill rfl, hcert⟩
  | deleteSkillCategory i =>
    simp only [step, delete_skill_category, delete_item]
    cases db.skill_categories.find? (fun r => r.id == i) with
    | none => exact ⟨hprof, hedu, hexp, hproj, hskill, hcert⟩
    | some r =>
      exact ⟨hprof, hedu, hexp, hproj, collOk_eraseP hskill _, hcert⟩
  | addCertification c =>
    simp only [step, add_certification, create_item, Bool.false_eq_true, if_false]
    exact ⟨hprof, hedu, hexp, hproj, hskill, collOk_append hcert rfl⟩
  | deleteCertification i =>
    simp only [step, delete_certification, delete_item]
    cases db.certifications.find? (fun r => r.id == i) with
    | none => exact ⟨hprof, hedu, hexp, hproj, hskill, hcert⟩
    | some r =>
      exact ⟨hprof, hedu, hexp, hproj, hskill, collOk_eraseP hcert _⟩

theorem foldl_invariant (ops : List ApiOp) :
    ∀ db : DBState, Invariant db → Invariant (ops.foldl step db) := by
  induction ops with
  | nil => intro db h; exact h
  | cons op ops ih => intro db h; exact ih _ (step_invariant db op h)

theorem invariant_emptyDB : Invariant emptyDB := by
  refine ⟨by simp [emptyDB], by simp [emptyDB], ?_, ?_, ?_, ?_⟩ <;>
    exact ⟨by simp [emptyDB], by simp [emptyDB]⟩

theorem runOps_invariant (ops : List ApiOp) : Invariant (runOps ops) :=
  foldl_invariant ops emptyDB invariant_emptyDB

/-- A sample valid profile body (the scenario body of the spec). -/
def sampleProfile : ProfileCreate :=
  { name := "A", phone := "1", email := "a@x.com",
    linkedin_url := "https://li.com/a", github_url := "https://gh.com/a" }

/-- A sample valid education body. -/
def sampleEducation : EducationCreate :=
  { institution := "Inst", degree := "BTech", cgpa := 9,
    duration := "2020-2024", location := "City" }

/-- The state after creating the sample profile and education against a
fresh store: both singletons are present. -/
def populatedDB : DBState :=
  step (step emptyDB (.createProfile sampleProfile))
    (.createEducation sampleEducation)

/-- C1: starting from the empty store, after every sequence of API
operations the profile table and the education table each hold at most one
row: `create_profile` and `create_education` refuse to insert when a row
is present, and no other operation inserts into these tables. -/
theorem singleton_tables_at_most_one_row (ops : List ApiOp) :
    (runOps ops).profile.length ≤ 1 ∧ (runOps ops).education.length ≤ 1 :=
  ⟨(runOps_invariant ops).1, (runOps_invariant ops).2.1⟩

/-- C8: after every sequence of API operations against a fresh store, each
collection list endpoint returns exactly the stored rows of its table, and
those rows carry strictly increasing serial ids — i.e. the surviving rows
appear in the order in which they were created (creates append at the tail
with a fresh id larger than every existing one, deletes preserve the
relative order of the survivors). -/
theorem list_returns_rows_in_creation_order (ops : List ApiOp) :
    (get_all_experiences (runOps ops) = (runOps ops).experience ∧
      (((runOps ops).experience.map (fun r => r.id)).Pairwise (· < ·))) ∧
    (get_all_projects (runOps ops) = (runOps ops).projects ∧
      (((runOps ops).projects.map (fun r => r.id)).Pairwise (· < ·))) ∧
    (get_all_skill_categories (runOps ops) = (runOps ops).skill_categories ∧
      (((runOps ops).skill_categories.map (fun r => r.id)).Pairwise (· < ·))) ∧
    (get_all_certifications (runOps ops) = (runOps ops).certifications ∧
      (((runOps ops).certifications.map (fun r => r.id)).Pairwise (· < ·))) := by
  obtain ⟨-, -, hexp, hproj, hskill, hcert⟩ := runOps_invariant ops
  exact ⟨⟨rfl, hexp.2⟩, ⟨rfl, hproj.2⟩, ⟨rfl, hskill.2⟩, ⟨rfl, hcert.2⟩⟩

/-- A second profile body, distinct from `sampleProfile` in every field. -/
def sampleProfile2 : ProfileCreate :=
  { name := "B", phone := "2", email := "b@x.com",
    linkedin_url := "https://li.com/b", github_url := "https://gh.com/b",
    portfolio_url := some "https://b.dev" }

/-- A second education body, distinct from `sampleEducation`. -/
def sampleEducation2 : EducationCreate :=
  { institution := "Inst2", degree := "MTech", cgpa := 8,
    duration := "2024-2026", location := "Town" }

/-- C2: when the singleton row is present, POST /profile and POST
/education fail with `HTTPException` 400 (already exists) and the store is
unchanged by the failed call; when it is absent, create succeeds and
afterwards the singleton table holds exactly the new row. -/
theorem singleton_create_spec (p : ProfileCreate) (e : EducationCreate)
    (db : DBState) :
    (db.profile ≠ [] →
       create_profile p db =
         .error (.httpException 400 "Profile already exists. Use PUT to update.") ∧
       step db (.createProfile p) = db) ∧
    (db.profile = [] →
       ∃ r db', create_profile p db = .ok (r, db') ∧ db'.profile = [r]) ∧
    (db.education ≠ [] →
       create_education e db =
         .error (.httpException 400 "Education entry already exists. Use PUT to update.") ∧
       step db (.createEducation e) = db) ∧
    (db.education = [] →
       ∃ r db', create_education e db = .ok (r, db') ∧ db'.education = [r]) := by
  obtain ⟨prof, edu, exp, proj, skills, certs, ps, es, xs, js, ss, cs⟩ := db
  refine ⟨?_, ?_, ?_, ?_⟩
  · intro h
    cases prof with
    | nil => exact absurd rfl h
    | cons r rest => exact ⟨rfl, rfl⟩
  · intro h
    cases h
    exact ⟨_, _, rfl, rfl⟩
  · intro h
    cases edu with
    | nil => exact absurd rfl h
    | cons r rest => exact ⟨rfl, rfl⟩
  · intro h
    cases h
    exact ⟨_, _, rfl, rfl⟩

/-- C2 witness: concrete instances of all four branches, at the empty
store and at a store with both singletons present. -/
theorem singleton_create_spec_witness :
    (∃ r db', create_profile sampleProfile emptyDB = .ok (r, db') ∧
       db'.profile = [r]) ∧
    (create_profile sampleProfile2 populatedDB =
       .error (.httpException 400 "Profile already exists. Use PUT to update.") ∧
     step populatedDB (.createProfile sampleProfile2) = populatedDB) ∧
    (∃ r db', create_education sampleEducation emptyDB = .ok (r, db') ∧
       db'.education = [r]) ∧
    (create_education sampleEducation2 populatedDB =
       .error (.httpException 400 "Education entry already exists. Use PUT to update.") ∧
     step populatedDB (.createEducation sampleEducation2) = populatedDB) :=
  ⟨(singleton_create_spec sampleProfile sampleEducation emptyDB).2.1 rfl,
   (singleton_create_spec sampleProfile2 sampleEducation2 populatedDB).1
     (by decide),
   (singleton_create_spec sampleProfile sampleEducation emptyDB).2.2.2 rfl,
   (singleton_create_spec sampleProfile2 sampleEducation2 populatedDB).2.2.1
     (by decide)⟩

/-- C3: PUT /profile and PUT /education fail with `HTTPException` 404 and
leave the store unchanged when the singleton is absent; when it is
present, the update succeeds and afterwards every create-shape field of
the stored row equals the corresponding field of the request body. -/
theorem singleton_update_spec (p : ProfileCreate) (e : EducationCreate)
    (db : DBState) :
    (db.profile = [] →
       update_profile p db =
         .error (.httpException 404 "Profile not found. Use POST to create one.") ∧
       step db (.updateProfile p) = db) ∧
    (db.profile ≠ [] →
       ∃ r db', update_profile p db = .ok (r, db') ∧ r.toCreate = p ∧
         get_profile db' = some r) ∧
    (db.education = [] →
       update_education e db =
         .error (.httpException 404 "Education not found. Use POST to create one.") ∧
       step db (.updateEducation e) = db) ∧
    (db.education ≠ [] →
       ∃ r db', update_education e db = .ok (r, db') ∧ r.toCreate = e ∧
         get_education db' = some r) := by
  obtain ⟨prof, edu, exp, proj, skills, certs, ps, es, xs, js, ss, cs⟩ := db
  refine ⟨?_, ?_, ?_, ?_⟩
  · intro h
    cases h
    exact ⟨rfl, rfl⟩
  · intro h
    cases prof with
    | nil => exact absurd rfl h
    | cons r rest => exact ⟨_, _, rfl, rfl, rfl⟩
  · intro h
    cases h
    exact ⟨rfl, rfl⟩
  · intro h
    cases edu with
    | nil => exact absurd rfl h
    | cons r rest => exact ⟨_, _, rfl, rfl, rfl⟩

/-- C3 witness: concrete instances of all four branches. -/
theorem singleton_update_spec_witness :
    (update_profile sampleProfile2 emptyDB =
       .error (.httpException 404 "Profile not found. Use POST to create one.") ∧
     step emptyDB (.updateProfile sampleProfile2) = emptyDB) ∧
    (∃ r db', update_profile sampleProfile2 populatedDB = .ok (r, db') ∧
       r.toCreate = sampleProfile2 ∧ get_profile db' = some r) ∧
    (update_education sampleEducation2 emptyDB =
       .error (.httpException 404 "Education not found. Use POST to create one.") ∧
     step emptyDB (.updateEducation sampleEducation2) = emptyDB) ∧
    (∃ r db', update_education sampleEducation2 populatedDB = .ok (r, db') ∧
       r.toCreate = sampleEducation2 ∧ get_education db' = some r) :=
  ⟨(singleton_update_spec sampleProfile2 sampleEducation2 emptyDB).1 rfl,
   (singleton_update_spec sampleProfile2 sampleEducation2 populatedDB).2.1
     (by decide),
   (singleton_update_spec sampleProfile2 sampleEducation2 emptyDB).2.2.1 rfl,
   (singleton_update_spec sampleProfile2 sampleEducation2 populatedDB).2.2.2
     (by decide)⟩

/-- C4: singleton update is idempotent — for every store and every request
body, applying PUT /profile (resp. PUT /education) twice in succession
yields exactly the same stored state as applying it once (in particular
this holds whenever the singleton row is present; when it is absent both
calls fail and both sides equal the unchanged store). -/
theorem singleton_update_idempotent (p : ProfileCreate) (e : EducationCreate)
    (db : DBState) :
    step (step db (.updateProfile p)) (.updateProfile p) =
      step db (.updateProfile p) ∧
    step (step db (.updateEducation e)) (.updateEducation e) =
      step db (.updateEducation e) := by
  obtain ⟨prof, edu, exp, proj, skills, certs, ps, es, xs, js, ss, cs⟩ := db
  constructor
  · cases prof with
    | nil => rfl
    | cons r rest => rfl
  · cases edu with
    | nil => rfl
    | cons r rest => rfl

/-- A sample experience body. -/
def sampleExperience : ExperienceCreate :=
  { company := "ACME", role := "Dev", duration := "2024",
    description := ["d1", "d2"] }

/-- A sample project body (the scenario body of the spec). -/
def sampleProject : ProjectCreate :=
  { title := "P1", technologies := ["X"], description := ["d"] }

/-- A sample skill-category body. -/
def sampleSkill : SkillCategoryCreate :=
  { category_name := "Languages", skills := ["Python"] }

/-- A sample certification body. -/
def sampleCertification : CertificationCreate :=
  { issuer := "Org", title := "Cert" }

/-- C5: for every resource kind, a successful create followed immediately
by read (singletons) or list (collections) returns a record whose
create-shape fields equal the input fields, extended with the serial id
assigned at creation; for collections the new record is appended at the
end of the list. -/
theorem create_then_read_spec (p : ProfileCreate) (e : EducationCreate)
    (xc : ExperienceCreate) (pc : ProjectCreate) (sc : SkillCategoryCreate)
    (cc : CertificationCreate) (db : DBState) :
    (db.profile = [] →
       ∃ r db', create_profile p db = .ok (r, db') ∧ r.toCreate = p ∧
         r.id = db.profile_seq ∧ get_profile db' = some r) ∧
    (db.education = [] →
       ∃ r db', create_education e db = .ok (r, db') ∧ r.toCreate = e ∧
         r.id = db.education_seq ∧ get_education db' = some r) ∧
    (∃ r db', add_experience xc db = .ok (r, db') ∧ r.toCreate = xc ∧
       r.id = db.experience_seq ∧
       get_all_experiences db' = get_all_experiences db ++ [r]) ∧
    (∃ r db', add_project pc db = .ok (r, db') ∧ r.toCreate = pc ∧
       r.id = db.projects_seq ∧
       get_all_projects db' = get_all_projects db ++ [r]) ∧
    (skillUniqueViolation db.skill_categories sc = false →
       ∃ r db', add_skill_category sc db = .ok (r, db') ∧ r.toCreate = sc ∧
         r.id = db.skills_seq ∧
         get_all_skill_categories db' = get_all_skill_categories db ++ [r]) ∧
    (∃ r db', add_certification cc db = .ok (r, db') ∧ r.toCreate = cc ∧
       r.id = db.certifications_seq ∧
       get_all_certifications db' = get_all_certifications db ++ [r]) := by
  obtain ⟨prof, edu, exp, proj, skills, certs, ps, es, xs, js, ss, cs⟩ := db
  refine ⟨?_, ?_, ⟨_, _, rfl, rfl, rfl, rfl⟩, ⟨_, _, rfl, rfl, rfl, rfl⟩,
    ?_, ⟨_, _, rfl, rfl, rfl, rfl⟩⟩
  · intro h
    cases h
    exact ⟨_, _, rfl, rfl, rfl, rfl⟩
  · intro h
    cases h
    exact ⟨_, _, rfl, rfl, rfl, rfl⟩
  · intro h
    simp only [add_skill_category, create_item, h, Bool.false_eq_true,
      if_false]
    exact ⟨_, _, rfl, rfl, rfl, rfl⟩

/-- C5 witness: concrete instances of all six resource kinds against the
empty store. -/
theorem create_then_read_spec_witness :
    (∃ r db', create_profile sampleProfile emptyDB = .ok (r, db') ∧
       r.toCreate = sampleProfile ∧ r.id = emptyDB.profile_seq ∧
       get_profile db' = some r) ∧
    (∃ r db', create_education sampleEducation emptyDB = .ok (r, db') ∧
       r.toCreate = sampleEducation ∧ r.id = emptyDB.education_seq ∧
       get_education db' = some r) ∧
    (∃ r db', add_experience sampleExperience emptyDB = .ok (r, db') ∧
       r.toCreate = sampleExperience ∧ r.id = emptyDB.experience_seq ∧
       get_all_experiences db' = get_all_experiences emptyDB ++ [r]) ∧
    (∃ r db', add_skill_category sampleSkill emptyDB = .ok (r, db') ∧
       r.toCreate = sampleSkill ∧ r.id = emptyDB.skills_seq ∧
       get_all_skill_categories db' =
         get_all_skill_categories emptyDB ++ [r]) :=
  ⟨(create_then_read_spec sampleProfile sampleEducation sampleExperience
      sampleProject sampleSkill sampleCertification emptyDB).1 rfl,
   (create_then_read_spec sampleProfile sampleEducation sampleExperience
      sampleProject sampleSkill sampleCertification emptyDB).2.1 rfl,
   (create_then_read_spec sampleProfile sampleEducation sampleExperience
      sampleProject sampleSkill sampleCertification emptyDB).2.2.1,
   (create_then_read_spec sampleProfile sampleEducation sampleExperience
      sampleProject sampleSkill sampleCertification emptyDB).2.2.2.2.1 rfl⟩

/-- C9: once a singleton row is present it never becomes absent again — no
operation of the API removes the profile or the education row: after any
single request handled from any state, a nonempty profile (resp.
education) table stays nonempty. -/
theorem singleton_never_removed (db : DBState) (op : ApiOp) :
    (db.profile ≠ [] → (step db op).profile ≠ []) ∧
    (db.education ≠ [] → (step db op).education ≠ []) := by
  obtain ⟨prof, edu, exp, proj, skills, certs, ps, es, xs, js, ss, cs⟩ := db
  cases op with
  | readRoot => exact ⟨fun h => h, fun h => h⟩
  | getProfile => exact ⟨fun h => h, fun h => h⟩
  | getEducation => exact ⟨fun h => h, fun h => h⟩
  | getAllExperiences => exact ⟨fun h => h, fun h => h⟩
  | getAllProjects => exact ⟨fun h => h, fun h => h⟩
  | getAllSkillCategories => exact ⟨fun h => h, fun h => h⟩
  | getAllCertifications => exact ⟨fun h => h, fun h => h⟩
  | createProfile p =>
    cases prof with
    | nil => exact ⟨fun h => absurd rfl h, fun h => h⟩
    | cons r rest => exact ⟨fun h => h, fun h => h⟩
  | updateProfile p =>
    cases prof with
    | nil => exact ⟨fun h => h, fun h => h⟩
    | cons r rest => exact ⟨fun _ => List.cons_ne_nil _ _, fun h => h⟩
  | createEducation e =>
    cases edu with
    | nil => exact ⟨fun h => h, fun h => absurd rfl h⟩
    | cons r rest => exact ⟨fun h => h, fun h => h⟩
  | updateEducation e =>
    cases edu with
    | nil => exact ⟨fun h => h, fun h => h⟩
    | cons r rest => exact ⟨fun h => h, fun _ => List.cons_ne_nil _ _⟩
  | addExperience c => exact ⟨fun h => h, fun h => h⟩
  | deleteExperience i =>
    simp only [step, delete_experience, delete_item]
    cases exp.find? (fun r => r.id == i) <;> exact ⟨fun h => h, fun h => h⟩
  | addProject c => exact ⟨fun h => h, fun h => h⟩
  | deleteProject i =>
    simp only [step, delete_project, delete_item]
    cases proj.find? (fun r => r.id == i) <;> exact ⟨fun h => h, fun h => h⟩
  | addSkillCategory c =>
    simp only [step, add_skill_category, create_item]
    cases skillUniqueViolation skills c <;> exact ⟨fun h => h, fun h => h⟩
  | deleteSkillCategory i =>
    simp only [step, delete_skill_category, delete_item]
    cases skills.find? (fun r => r.id == i) <;> exact ⟨fun h => h, fun h => h⟩
  | addCertification c => exact ⟨fun h => h, fun h => h⟩
  | deleteCertification i =>
    simp only [step, delete_certification, delete_item]
    cases certs.find? (fun r => r.id == i) <;> exact ⟨fun h => h, fun h => h⟩

/-- C9 witness: with both singletons present, a delete on a collection
leaves them present. -/
theorem singleton_never_removed_witness :
    (step populatedDB (.deleteExperience 1)).profile ≠ [] ∧
    (step populatedDB (.deleteExperience 1)).education ≠ [] :=
  ⟨(singleton_never_removed populatedDB (.deleteExperience 1)).1 (by decide),
   (singleton_never_removed populatedDB (.deleteExperience 1)).2 (by decide)⟩

/-- C10: a successful singleton update overwrites only the create-shape
fields and leaves the row's id equal to its value before the update. -/
theorem singleton_update_preserves_id (p : ProfileCreate) (e : EducationCreate)
    (db : DBState) :
    (∀ r rest, db.profile = r :: rest →
       ∃ r' db', update_profile p db = .ok (r', db') ∧ r'.id = r.id ∧
         db'.profile = r' :: rest) ∧
    (∀ r rest, db.education = r :: rest →
       ∃ r' db', update_education e db = .ok (r', db') ∧ r'.id = r.id ∧
         db'.education = r' :: rest) := by
  obtain ⟨prof, edu, exp, proj, skills, certs, ps, es, xs, js, ss, cs⟩ := db
  constructor
  · intro r rest h
    cases h
    exact ⟨_, _, rfl, rfl, rfl⟩
  · intro r rest h
    cases h
    exact ⟨_, _, rfl, rfl, rfl⟩

/-- The profile row stored by creating `sampleProfile` in a fresh store. -/
def profileRow1 : ProfileRow :=
  { id := 1, name := "A", phone := "1", email := "a@x.com",
    linkedin_url := "https://li.com/a", github_url := "https://gh.com/a",
    portfolio_url := none }

/-- The education row stored by creating `sampleEducation` in a fresh
store. -/
def educationRow1 : EducationRow :=
  { id := 1, institution := "Inst", degree := "BTech", cgpa := 9,
    duration := "2020-2024", location := "City" }

/-- C10 witness: updating the concrete populated store keeps id 1. -/
theorem singleton_update_preserves_id_witness :
    (∃ r' db', update_profile sampleProfile2 populatedDB = .ok (r', db') ∧
       r'.id = profileRow1.id ∧ db'.profile = r' :: []) ∧
    (∃ r' db', update_education sampleEducation2 populatedDB = .ok (r', db') ∧
       r'.id = educationRow1.id ∧ db'.education = r' :: []) :=
  ⟨(singleton_update_preserves_id sampleProfile2 sampleEducation2
      populatedDB).1 profileRow1 [] (by decide),
   (singleton_update_preserves_id sampleProfile2 sampleEducation2
      populatedDB).2 educationRow1 [] (by decide)⟩

theorem find?_id_eq_none {S : Type} (f : S → Nat) (l : List S)
    (item_id : Nat) (h : ∀ r ∈ l, f r ≠ item_id) :
    l.find? (fun r => f r == item_id) = none := by
  rw [List.find?_eq_none]
  intro x hx
  simpa using h x hx

/-- C6: for every collection table and every identifier, delete fails with
`HTTPException` 404 and leaves the store unchanged when no row with that
identifier exists; when such a row exists (ids are unique — they come from
the serial primary key), delete removes exactly that row, signals success,
and the surviving rows contain no row with that identifier. -/
theorem delete_item_spec {R : Type} (rowId : R → Nat) (rows : List R)
    (item_id : Nat) (db : DBState) :
    ((∀ r ∈ rows, rowId r ≠ item_id) →
       delete_item rowId rows item_id =
         .error (.httpException 404 "Item not found")) ∧
    ((∃ r ∈ rows, rowId r = item_id) → (rows.map rowId).Nodup →
       ∃ l1 x l2, rows = l1 ++ x :: l2 ∧ rowId x = item_id ∧
         delete_item rowId rows item_id =
           .ok ("Item deleted successfully", l1 ++ l2) ∧
         ∀ r ∈ l1 ++ l2, rowId r ≠ item_id) ∧
    ((∀ r ∈ db.experience, r.id ≠ item_id) →
       step db (.deleteExperience item_id) = db) ∧
    ((∀ r ∈ db.projects, r.id ≠ item_id) →
       step db (.deleteProject item_id) = db) ∧
    ((∀ r ∈ db.skill_categories, r.id ≠ item_id) →
       step db (.deleteSkillCategory item_id) = db) ∧
    ((∀ r ∈ db.certifications, r.id ≠ item_id) →
       step db (.deleteCertification item_id) = db) := by
  refine ⟨?_, ?_, ?_, ?_, ?_, ?_⟩
  · intro h
    simp [delete_item, find?_id_eq_none rowId rows item_id h]
  · rintro ⟨x, hx, hid⟩ hnd
    have px : (fun r => rowId r == item_id) x = true := by simpa using hid
    obtain ⟨a, l1, l2, hl1, pa, heq, herase⟩ :=
      @List.exists_of_eraseP R (fun r => rowId r == item_id) rows x hx px
    cases hf : rows.find? (fun r => rowId r == item_id) with
    | none =>
      rw [List.find?_eq_none] at hf
      exact absurd px (hf x hx)
    | some y =>
      refine ⟨l1, a, l2, heq, by simpa using pa, ?_, ?_⟩
      · simp [delete_item, hf, herase]
      · have hmap : ((l1 ++ a :: l2).map rowId).Nodup := heq ▸ hnd
        rw [List.map_append, List.nodup_append] at hmap
        have h2 : (rowId a :: l2.map rowId).Nodup := by
          simpa using hmap.2.1
        rw [List.nodup_cons] at h2
        have ha' : rowId a = item_id := by simpa using pa
        intro r hr
        rcases List.mem_append.1 hr with hr | hr
        · have := hl1 r hr
          simpa using this
        · intro hcon
          exact h2.1 (List.mem_map.2 ⟨r, hr, by rw [hcon, ha']⟩)
  · intro h
    simp [step, delete_experience, delete_item,
      find?_id_eq_none (fun r => ExperienceRow.id r) db.experience item_id h]
  · intro h
    simp [step, delete_project, delete_item,
      find?_id_eq_none (fun r => ProjectRow.id r) db.projects item_id h]
  · intro h
    simp [step, delete_skill_category, delete_item,
      find?_id_eq_none (fun r => SkillCategoryRow.id r) db.skill_categories
        item_id h]
  · intro h
    simp [step, delete_certification, delete_item,
      find?_id_eq_none (fun r => CertificationRow.id r) db.certifications
        item_id h]

/-- The first experience row of the two-row sample store. -/
def expRow1 : ExperienceRow :=
  { id := 1, company := "ACME", role := "Dev", duration := "2024",
    description := ["d1", "d2"] }

/-- The second experience row of the two-row sample store. -/
def expRow2 : ExperienceRow :=
  { id := 2, company := "B", role := "QA", duration := "2025",
    description := [] }

/-- A store holding two experience rows with ids 1 and 2. -/
def twoExpDB : DBState :=
  { emptyDB with experience := [expRow1, expRow2], experience_seq := 3 }

/-- C6 witness: deleting id 5 from the two-row store fails with 404 and
changes nothing; deleting id 1 removes exactly the first row. -/
theorem delete_item_spec_witness :
    (delete_item (fun r => ExperienceRow.id r) [expRow1, expRow2] 5 =
       .error (.httpException 404 "Item not found")) ∧
    (∃ l1 x l2, [expRow1, expRow2] = l1 ++ x :: l2 ∧ x.id = 1 ∧
       delete_item (fun r => ExperienceRow.id r) [expRow1, expRow2] 1 =
         .ok ("Item deleted successfully", l1 ++ l2) ∧
       ∀ r ∈ l1 ++ l2, r.id ≠ 1) ∧
    step twoExpDB (.deleteExperience 5) = twoExpDB :=
  ⟨(delete_item_spec (fun r => ExperienceRow.id r) [expRow1, expRow2] 5
      twoExpDB).1 (by decide),
   (delete_item_spec (fun r => ExperienceRow.id r) [expRow1, expRow2] 1
      twoExpDB).2.1 (by decide) (by decide),
   (delete_item_spec (fun r => ExperienceRow.id r) [expRow1, expRow2] 5
      twoExpDB).2.2.1 (by decide)⟩

/-- A store holding one skill category named "Languages". -/
def dupSkillDB : DBState :=
  { emptyDB with
    skill_categories :=
      [{ id := 1, category_name := "Languages", skills := ["Python"] }],
    skills_seq := 2 }

/-- C7 counterexample: creating a second skill category with the already
stored `category_name` "Languages" (and a different skills list) does fail
with a constraint violation and stores nothing — but the failure is NOT
surfaced as a 400 client error: `create_item` does not catch the database
integrity error, and an uncaught exception is answered with HTTP status
500, not 400. -/
theorem skills_duplicate_not_400 :
    add_skill_category { category_name := "Languages", skills := ["C"] }
        dupSkillDB =
      .error (.constraintViolation
        "duplicate key value violates unique constraint") ∧
    (ApiError.constraintViolation
        "duplicate key value violates unique constraint").statusCode ≠ 400 :=
  ⟨rfl, by decide⟩

/-- C7 (amended): for every state containing a skill-category row with the
requested `category_name`, creating a second skill category with that name
fails with a `ConstraintViolation` regardless of the skills list in the
new input, no new row is stored — and the error escapes the handler
uncaught, so it is surfaced with HTTP status 500 (an internal server
error), not as a 400 client error. -/
theorem skills_duplicate_constraint_spec (sc : SkillCategoryCreate)
    (db : DBState)
    (h : ∃ r ∈ db.skill_categories, r.category_name = sc.category_name) :
    add_skill_category sc db =
      .error (.constraintViolation
        "duplicate key value violates unique constraint") ∧
    (ApiError.constraintViolation
        "duplicate key value violates unique constraint").statusCode = 500 ∧
    step db (.addSkillCategory sc) = db := by
  have hb : skillUniqueViolation db.skill_categories sc = true := by
    obtain ⟨r, hr, he⟩ := h
    simp only [skillUniqueViolation, List.any_eq_true]
    exact ⟨r, hr, by simpa using he⟩
  refine ⟨?_, rfl, ?_⟩
  · simp [add_skill_category, create_item, hb]
  · simp [step, add_skill_category, create_item, hb]

/-- C7 amended-claim witness: the concrete duplicate create against the
one-row store. -/
theorem skills_duplicate_constraint_spec_witness :
    add_skill_category { category_name := "Languages", skills := ["OCaml"] }
        dupSkillDB =
      .error (.constraintViolation
        "duplicate key value violates unique constraint") ∧
    (ApiError.constraintViolation
        "duplicate key value violates unique constraint").statusCode = 500 ∧
    step dupSkillDB (.addSkillCategory
        { category_name := "Languages", skills := ["OCaml"] }) = dupSkillDB :=
  skills_duplicate_constraint_spec
    { category_name := "Languages", skills := ["OCaml"] } dupSkillDB
    ⟨{ id := 1, category_name := "Languages", skills := ["Python"] },
      by decide, rfl⟩

end PortfolioApi
